import Mathlib

/-!
Verification of the ZenB breathing kernel (services/ZenBKernel.ts) against its
natural-language specification.  The TypeScript source is shallowly embedded:
numbers are modelled as exact rationals, the tagged event union as an inductive
type, and the mutable kernel object as explicit state passing.  Environment
inputs that the source reads from the host runtime (Date.now(), document.hidden,
the external pattern catalog and the persistent event store) are threaded
through an explicit Env record.
-/

set_option maxHeartbeats 1000000

-- ===================================================================
-- DATA MODEL (types.ts union members as used by the kernel source)
-- ===================================================================

/-- Kernel status union from RuntimeState in ZenBKernel.ts. -/
inductive Status
| IDLE
| RUNNING
| PAUSED
| HALTED
| SAFETY_LOCK
deriving DecidableEq, Repr

/-- Breath phase union (inhale, holdIn, exhale, holdOut). -/
inductive BreathPhase
| inhale
| holdIn
| exhale
| holdOut
deriving DecidableEq, Repr

/-- Modelled from the spec: the BreathPattern record of types.ts is not under
src; per the spec data model a pattern is an immutable protocol definition with
phase durations keyed by phase name. -/
structure BreathPattern where
  timings : BreathPhase → ℚ

/-- SafetyProfile: lockout metadata per pattern id. -/
structure SafetyProfile where
  safety_lock_until : ℚ
deriving DecidableEq, Repr

/-- BeliefState: the four scalars of the internal model. -/
structure BeliefState where
  arousal : ℚ
  attention : ℚ
  rhythm_alignment : ℚ
  prediction_error : ℚ
deriving DecidableEq, Repr

/-- Observation: point-in-time sensor sample (field names as in the source,
including the visibilty_state spelling). -/
structure Observation where
  timestamp : ℚ
  delta_time : ℚ
  visibilty_state : String
  user_interaction : Option String
  heart_rate : Option ℚ
  hr_confidence : Option ℚ
deriving DecidableEq, Repr

/-- Safety interdiction actions appearing in the source. -/
inductive SafetyAction
| REJECT_START
| EMERGENCY_DAMPENING
| PATTERN_LOCKED
deriving DecidableEq, Repr

/-- Discriminant tags of the KernelEvent union. -/
inductive EventType
| BOOT
| LOAD_PROTOCOL
| START_SESSION
| INTERRUPTION
| RESUME
| HALT
| PHASE_TRANSITION
| CYCLE_COMPLETE
| TICK
| ADAPTATION
| SAFETY_INTERDICTION
deriving DecidableEq, Repr

/-- KernelEvent: the closed tagged union; every variant carries a timestamp. -/
inductive KernelEvent
| BOOT (timestamp : ℚ)
| LOAD_PROTOCOL (patternId : String) (timestamp : ℚ)
| START_SESSION (timestamp : ℚ)
| INTERRUPTION (kind : String) (timestamp : ℚ)
| RESUME (timestamp : ℚ)
| HALT (reason : String) (timestamp : ℚ)
| PHASE_TRANSITION (fromPhase toPhase : BreathPhase) (timestamp : ℚ)
| CYCLE_COMPLETE (count : ℕ) (timestamp : ℚ)
| TICK (dt : ℚ) (timestamp : ℚ)
| ADAPTATION (parameter : String) (timestamp : ℚ)
| SAFETY_INTERDICTION (riskLevel : ℚ) (action : SafetyAction) (timestamp : ℚ)
deriving DecidableEq, Repr

/-- Discriminant of an event (the `type` field of the TS union). -/
def KernelEvent.type : KernelEvent → EventType
| .BOOT _ => .BOOT
| .LOAD_PROTOCOL _ _ => .LOAD_PROTOCOL
| .START_SESSION _ => .START_SESSION
| .INTERRUPTION _ _ => .INTERRUPTION
| .RESUME _ => .RESUME
| .HALT _ _ => .HALT
| .PHASE_TRANSITION _ _ _ => .PHASE_TRANSITION
| .CYCLE_COMPLETE _ _ => .CYCLE_COMPLETE
| .TICK _ _ => .TICK
| .ADAPTATION _ _ => .ADAPTATION
| .SAFETY_INTERDICTION _ _ _ => .SAFETY_INTERDICTION

/-- Accessor for the patternId field of a LOAD_PROTOCOL event (empty string on
other variants; only read by the guard when the type is LOAD_PROTOCOL). -/
def KernelEvent.patternId : KernelEvent → String
| .LOAD_PROTOCOL pid _ => pid
| _ => ""

/-- RuntimeState: the single mutable aggregate owned by the kernel. -/
structure RuntimeState where
  status : Status
  bootTimestamp : ℚ
  pattern : Option BreathPattern
  phase : BreathPhase
  phaseElapsed : ℚ
  phaseDuration : ℚ
  cycleCount : ℕ
  sessionDuration : ℚ
  belief : BeliefState
  lastObservation : Option Observation
  safetyRegistry : String → Option SafetyProfile

-- ===================================================================
-- SUBSYSTEM: FreeEnergyController (ZenBKernel.ts lines 42-97)
-- ===================================================================

/-- JavaScript truthiness of an optional numeric field: undefined and 0 are
falsy (the source tests raw fields with the && operator). -/
def jsTruthy : Option ℚ → Bool
| none => false
| some x => decide (x ≠ 0)

/-- FreeEnergyController.update, translated line by line from the source. -/
def FreeEnergyController.update (currentBelief : BeliefState) (obs : Observation)
    (_targetPattern : Option BreathPattern) : BeliefState :=
  let dt := obs.delta_time
  let arousal := currentBelief.arousal
  let attention := currentBelief.attention
  let rhythm_alignment := currentBelief.rhythm_alignment
  let expected_arousal : ℚ := 3/10
  let observed_arousal : ℚ :=
    if jsTruthy obs.heart_rate && jsTruthy obs.hr_confidence
        && decide (obs.hr_confidence.getD 0 > 3/5) then
      let normalized_hr := min 1 (max 0 ((obs.heart_rate.getD 0 - 50) / 70))
      arousal * (9/10) + normalized_hr * (1/10)
    else arousal
  let isDistracted : Bool :=
    decide (obs.user_interaction = some "pause") || decide (obs.visibilty_state = "hidden")
  let error_arousal : ℚ := |observed_arousal - expected_arousal|
  let error_attention : ℚ := if isDistracted then 1 else 0
  let F : ℚ := error_arousal * (4/10) + error_attention * (6/10)
    + (1 - rhythm_alignment) * (3/10)
  let attention2 : ℚ :=
    if isDistracted then max 0 (attention - 1 * dt)
    else min 1 (attention + (1/10) * dt)
  let rhythm_alignment2 : ℚ :=
    if isDistracted then max 0 (rhythm_alignment - (1/2) * dt)
    else min 1 (rhythm_alignment + (2/10) * dt)
  let arousal2 : ℚ := arousal + (observed_arousal - arousal) * dt
  { arousal := arousal2
    attention := attention2
    rhythm_alignment := rhythm_alignment2
    prediction_error := F }

-- ===================================================================
-- SUBSYSTEM: SafetyPlane (ZenBKernel.ts lines 100-145)
-- ===================================================================

/-- Truthiness test of the registry lookup combined with the lockout window
comparison (source: profile && profile.safety_lock_until > Date.now()). -/
def profileLocked (now : ℚ) : Option SafetyProfile → Bool
| some profile => decide (profile.safety_lock_until > now)
| none => false

/-- SafetyPlane.intercept.  Date.now() is the explicit parameter now.  The
three rules test pairwise distinct intention types, so the source's
fall-through structure is equivalent to this if-chain. -/
def SafetyPlane.intercept (now : ℚ) (state : RuntimeState)
    (intention : KernelEvent) : Option KernelEvent :=
  if state.status = Status.SAFETY_LOCK ∧ intention.type = EventType.START_SESSION then
    some (KernelEvent.SAFETY_INTERDICTION 1 SafetyAction.REJECT_START now)
  else if intention.type = EventType.TICK ∧ state.status = Status.RUNNING
      ∧ state.belief.prediction_error > 19/20 ∧ state.sessionDuration > 10 then
    some (KernelEvent.SAFETY_INTERDICTION (19/20) SafetyAction.EMERGENCY_DAMPENING now)
  else if intention.type = EventType.LOAD_PROTOCOL
      ∧ profileLocked now (state.safetyRegistry intention.patternId) = true then
    some (KernelEvent.SAFETY_INTERDICTION (8/10) SafetyAction.PATTERN_LOCKED now)
  else
    none

-- ===================================================================
-- SUBSYSTEM: phase sequencer (services/phaseMachine.ts, not under src)
-- ===================================================================

/-- Canonical fixed cycle order inhale, holdIn, exhale, holdOut, inhale. -/
def BreathPhase.nextInOrder : BreathPhase → BreathPhase
| .inhale => .holdIn
| .holdIn => .exhale
| .exhale => .holdOut
| .holdOut => .inhale

/-- Modelled from the spec: nextPhaseSkipZero of services/phaseMachine.ts is
not under src.  Per spec section 4.1 it returns the next phase in the canonical
cycle order, skipping any phase whose configured duration is at most 0, falling
back to the sole non-zero phase, with a deterministic default (inhale) when all
durations are zero. -/
def nextPhaseSkipZero (phase : BreathPhase) (pattern : BreathPattern) : BreathPhase :=
  let c1 := phase.nextInOrder
  if pattern.timings c1 > 0 then c1
  else
    let c2 := c1.nextInOrder
    if pattern.timings c2 > 0 then c2
    else
      let c3 := c2.nextInOrder
      if pattern.timings c3 > 0 then c3
      else
        let c4 := c3.nextInOrder
        if pattern.timings c4 > 0 then c4
        else BreathPhase.inhale

/-- Modelled from the spec: isCycleBoundary of services/phaseMachine.ts is not
under src.  Per spec section 4.1 it is true exactly for the phase that starts a
new cycle, canonically inhale. -/
def isCycleBoundary (phase : BreathPhase) : Bool :=
  phase == BreathPhase.inhale

-- ===================================================================
-- MAIN RUNTIME: ZenBKernel (ZenBKernel.ts lines 149-344)
-- ===================================================================

/-- Environment inputs the kernel source reads from the host runtime:
Date.now(), document.hidden, the static BREATHING_PATTERNS catalog (types.ts,
not under src) and the persistent event store append call (eventStore.ts, not
under src; per the spec contract append returns a success-or-storage-error
result). -/
structure Env where
  now : ℚ
  docHidden : Bool
  catalog : String → Option BreathPattern
  store : KernelEvent → Except String Unit

/-- Kernel object state: the canonical RuntimeState, the sequence of events the
kernel has submitted to the event store (in append order), and the bounded
most-recent-first log buffer. -/
structure Kernel where
  state : RuntimeState
  log : List KernelEvent
  logBuffer : List KernelEvent

/-- ZenBKernel.getInitialState (Date.now() passed explicitly). -/
def ZenBKernel.getInitialState (now : ℚ) : RuntimeState :=
  { status := Status.IDLE
    bootTimestamp := now
    pattern := none
    phase := BreathPhase.inhale
    phaseElapsed := 0
    phaseDuration := 0
    cycleCount := 0
    sessionDuration := 0
    belief :=
      { arousal := 1/2
        attention := 1/2
        rhythm_alignment := 0
        prediction_error := 0 }
    lastObservation := none
    safetyRegistry := fun _ => none }

/-- ZenBKernel.reduce for every variant except TICK (the TICK case, handleTick,
re-enters dispatch and is defined below; on a TICK argument this function is
never invoked, because the guard only ever substitutes SAFETY_INTERDICTION
events and handleTick only re-dispatches PHASE_TRANSITION and CYCLE_COMPLETE).
Each case is translated from the source switch. -/
def ZenBKernel.reduceNonTick (env : Env) (k : Kernel) (event : KernelEvent) : Kernel :=
  match event with
  | KernelEvent.BOOT _ =>
      { k with state := { k.state with status := Status.IDLE } }
  | KernelEvent.LOAD_PROTOCOL patternId _ =>
      if k.state.status = Status.SAFETY_LOCK then k
      else
        match env.catalog patternId with
        | some pattern =>
            { k with state :=
                { k.state with
                    pattern := some pattern
                    phase := BreathPhase.inhale
                    phaseDuration := pattern.timings BreathPhase.inhale
                    phaseElapsed := 0
                    cycleCount := 0
                    sessionDuration := 0
                    status := Status.IDLE
                    belief :=
                      { k.state.belief with
                          rhythm_alignment := 0
                          prediction_error := 0 } } }
        | none => k
  | KernelEvent.START_SESSION _ =>
      if k.state.pattern.isSome then
        { k with state := { k.state with status := Status.RUNNING } }
      else k
  | KernelEvent.INTERRUPTION _ _ =>
      if k.state.status = Status.RUNNING then
        { k with state := { k.state with status := Status.PAUSED } }
      else k
  | KernelEvent.RESUME _ =>
      if k.state.status = Status.PAUSED then
        { k with state := { k.state with status := Status.RUNNING } }
      else k
  | KernelEvent.HALT _ _ =>
      { k with state := { k.state with status := Status.IDLE, phaseElapsed := 0 } }
  | KernelEvent.SAFETY_INTERDICTION _ action _ =>
      if action = SafetyAction.EMERGENCY_DAMPENING then
        { k with state := { k.state with status := Status.SAFETY_LOCK } }
      else k
  | KernelEvent.PHASE_TRANSITION _ toPhase _ =>
      let s1 := { k.state with phase := toPhase, phaseElapsed := 0 }
      let s2 :=
        match s1.pattern with
        | some pattern => { s1 with phaseDuration := pattern.timings toPhase }
        | none => s1
      { k with state := s2 }
  | KernelEvent.CYCLE_COMPLETE count _ =>
      { k with state := { k.state with cycleCount := count } }
  | KernelEvent.TICK _ _ => k
  | KernelEvent.ADAPTATION _ _ => k

/-- ZenBKernel.dispatch as invoked re-entrantly from handleTick.  Identical to
dispatch below (see dispatchInner_eq_dispatch); split out only so that the
recursion through the TICK case is structurally terminating. -/
def ZenBKernel.dispatchInner (env : Env) (k : Kernel) (intention : KernelEvent) : Kernel :=
  let interdiction := SafetyPlane.intercept env.now k.state intention
  let eventToProcess := interdiction.getD intention
  let _appendResult := env.store eventToProcess
  let k1 := { k with
      log := k.log ++ [eventToProcess]
      logBuffer := (eventToProcess :: k.logBuffer).take 50 }
  ZenBKernel.reduceNonTick env k1 eventToProcess

/-- ZenBKernel.handleTick, translated from the source.  The two nested
this.dispatch calls are dispatchInner (equal to dispatch on those events). -/
def ZenBKernel.handleTick (env : Env) (k : Kernel) (dt : ℚ) : Kernel :=
  if k.state.status ≠ Status.RUNNING ∧ k.state.status ≠ Status.PAUSED then k
  else
    let obs : Observation :=
      { timestamp := env.now
        delta_time := dt
        visibilty_state := if env.docHidden then "hidden" else "visible"
        user_interaction :=
          if k.state.status = Status.PAUSED then some "pause" else none
        heart_rate := k.state.lastObservation.bind Observation.heart_rate
        hr_confidence := k.state.lastObservation.bind Observation.hr_confidence }
    let k2 := { k with state :=
        { k.state with belief :=
            FreeEnergyController.update k.state.belief obs k.state.pattern } }
    match k2.state.pattern with
    | some pattern =>
        if k2.state.status = Status.RUNNING then
          let k3 := { k2 with state :=
              { k2.state with
                  phaseElapsed := k2.state.phaseElapsed + dt
                  sessionDuration := k2.state.sessionDuration + dt } }
          if k3.state.phaseElapsed ≥ k3.state.phaseDuration then
            let next := nextPhaseSkipZero k3.state.phase pattern
            let k4 := ZenBKernel.dispatchInner env k3
              (KernelEvent.PHASE_TRANSITION k3.state.phase next env.now)
            if isCycleBoundary next then
              ZenBKernel.dispatchInner env k4
                (KernelEvent.CYCLE_COMPLETE (k4.state.cycleCount + 1) env.now)
            else k4
          else k3
        else k2
    | none => k2

/-- ZenBKernel.reduce: the full reducer including the TICK case. -/
def ZenBKernel.reduce (env : Env) (k : Kernel) (event : KernelEvent) : Kernel :=
  match event with
  | KernelEvent.TICK dt _ => ZenBKernel.handleTick env k dt
  | e => ZenBKernel.reduceNonTick env k e

/-- ZenBKernel.dispatch (lines 204-219): guard, persist (result discarded by
the source), log buffer push, reduce.  Notification is modelled separately
(see the reference-semantics model below). -/
def ZenBKernel.dispatch (env : Env) (k : Kernel) (intention : KernelEvent) : Kernel :=
  let interdiction := SafetyPlane.intercept env.now k.state intention
  let eventToProcess := interdiction.getD intention
  let _appendResult := env.store eventToProcess
  let k1 := { k with
      log := k.log ++ [eventToProcess]
      logBuffer := (eventToProcess :: k.logBuffer).take 50 }
  ZenBKernel.reduce env k1 eventToProcess

-- ===================================================================
-- REFERENCE-SEMANTICS MODEL of the outward state channels (for the
-- snapshot/aliasing behaviour of getState, subscribe and notify)
-- ===================================================================

/-- Top-level RuntimeState object with its nested belief object held by
reference: JavaScript objects are heap cells, an object-valued field stores a
cell index, and this.state is the cell at kref.  This makes the shallow spread
of the source observable: it copies the top-level fields — including the
belief reference — without duplicating the belief object itself.  The belief
field is the modelled representative of the nested objects of RuntimeState;
pattern, lastObservation and safetyRegistry alias across the spread in exactly
the same way in the source. -/
structure RuntimeStateCell where
  status : Status
  bootTimestamp : ℚ
  pattern : Option BreathPattern
  phase : BreathPhase
  phaseElapsed : ℚ
  phaseDuration : ℚ
  cycleCount : ℕ
  sessionDuration : ℚ
  beliefRef : ℕ
  lastObservation : Option Observation
  safetyRegistry : String → Option SafetyProfile

/-- Kernel object for the aliasing model: a heap of top-level state cells, a
heap of belief objects, and the reference held in this.state. -/
structure KernelObj where
  stateHeap : List RuntimeStateCell
  beliefHeap : List BeliefState
  kref : ℕ

/-- Default cell returned by the heap reader on dangling indices (never
created by the model). -/
def initialCell : RuntimeStateCell :=
  { status := Status.IDLE
    bootTimestamp := 0
    pattern := none
    phase := BreathPhase.inhale
    phaseElapsed := 0
    phaseDuration := 0
    cycleCount := 0
    sessionDuration := 0
    beliefRef := 0
    lastObservation := none
    safetyRegistry := fun _ => none }

/-- Dereference a top-level state cell. -/
def cellRead (h : List RuntimeStateCell) (r : ℕ) : RuntimeStateCell :=
  h.getD r initialCell

/-- Dereference a belief object. -/
def beliefRead (h : List BeliefState) (r : ℕ) : BeliefState :=
  h.getD r
    { arousal := 1/2, attention := 1/2, rhythm_alignment := 0, prediction_error := 0 }

/-- External mutation of the status field of the top-level object a handed-out
reference points to (what a misbehaving subscriber could do to a received
value). -/
def heapSetStatus (h : List RuntimeStateCell) (r : ℕ) (v : Status) :
    List RuntimeStateCell :=
  h.set r { cellRead h r with status := v }

/-- External in-place mutation of a belief object reached through the belief
field of a handed-out value. -/
def heapSetPredictionError (h : List BeliefState) (r : ℕ) (q : ℚ) :
    List BeliefState :=
  h.set r { beliefRead h r with prediction_error := q }

/-- ZenBKernel.getState (line 187): return this.state — the source returns the
live object reference, not a copy. -/
def ZenBKernel.getStateRef (k : KernelObj) : ℕ :=
  k.kref

/-- The argument of the immediate callback invocation in ZenBKernel.subscribe
(line 192): cb(this.state) — the live object reference. -/
def ZenBKernel.subscribeCallArg (k : KernelObj) : ℕ :=
  k.kref

/-- The argument of a callback invocation in ZenBKernel.notify (line 342):
cb({ ...this.state }) — a SHALLOW copy: a fresh top-level cell whose fields,
including the belief reference, are copied from the live cell, while the
belief object itself is not duplicated.  Returns the extended kernel object
and the reference handed to the callback. -/
def ZenBKernel.notifyCallArg (k : KernelObj) : KernelObj × ℕ :=
  ({ k with stateHeap := k.stateHeap ++ [cellRead k.stateHeap k.kref] },
   k.stateHeap.length)

-- ===================================================================
-- SPEC-SIDE FORMULAS (for the refinement comparison of claim C8; these
-- follow the words of the spec, not the source)
-- ===================================================================

/-- Sensor-grounding condition exactly as the claim words it: heart_rate is
present and hr_confidence is greater than 0.6. -/
def specHRCond (obs : Observation) : Bool :=
  obs.heart_rate.isSome
    && (match obs.hr_confidence with
        | some c => decide (c > 3/5)
        | none => false)

/-- Observed arousal exactly as the claim words it: blend the clamped
normalized heart rate into arousal when specHRCond holds, else arousal. -/
def specObservedArousal (b : BeliefState) (obs : Observation) : ℚ :=
  if specHRCond obs then
    b.arousal * (9/10) + (min 1 (max 0 ((obs.heart_rate.getD 0 - 50) / 70))) * (1/10)
  else b.arousal

/-- Distraction flag as the claim words it. -/
def specDistracted (obs : Observation) : Bool :=
  decide (obs.user_interaction = some "pause") || decide (obs.visibilty_state = "hidden")

/-- Prediction error exactly as the claim words it. -/
def specPredictionError (b : BeliefState) (obs : Observation) : ℚ :=
  (4/10) * |specObservedArousal b obs - 3/10|
    + (6/10) * (if specDistracted obs then 1 else 0)
    + (3/10) * (1 - b.rhythm_alignment)

/-- Amended sensor-grounding condition: heart_rate present with a nonzero
value (JavaScript truthiness) and hr_confidence present and greater than
0.6. -/
def specHRCondAmended (obs : Observation) : Bool :=
  (match obs.heart_rate with
   | some hr => decide (hr ≠ 0)
   | none => false)
    && (match obs.hr_confidence with
        | some c => decide (c > 3/5)
        | none => false)

/-- Observed arousal under the amended condition. -/
def specObservedArousalAmended (b : BeliefState) (obs : Observation) : ℚ :=
  if specHRCondAmended obs then
    b.arousal * (9/10) + (min 1 (max 0 ((obs.heart_rate.getD 0 - 50) / 70))) * (1/10)
  else b.arousal

/-- Prediction error under the amended condition. -/
def specPredictionErrorAmended (b : BeliefState) (obs : Observation) : ℚ :=
  (4/10) * |specObservedArousalAmended b obs - 3/10|
    + (6/10) * (if specDistracted obs then 1 else 0)
    + (3/10) * (1 - b.rhythm_alignment)

-- ===================================================================
-- CONCRETE FIXTURES (witness and counterexample inputs)
-- ===================================================================

/-- Box-breathing style pattern from the spec test catalogue: inhale 4,
holdIn 0, exhale 4, holdOut 2. -/
def patBox : BreathPattern :=
  { timings := fun ph =>
      match ph with
      | BreathPhase.inhale => 4
      | BreathPhase.holdIn => 0
      | BreathPhase.exhale => 4
      | BreathPhase.holdOut => 2 }

/-- Baseline environment: clock at 0, document visible, empty catalog,
always-succeeding store. -/
def env0 : Env :=
  { now := 0
    docHidden := false
    catalog := fun _ => none
    store := fun _ => Except.ok () }

/-- A store whose every append fails with a storage error. -/
def failStore : KernelEvent → Except String Unit :=
  fun _ => Except.error "storage failure"

/-- Kernel in SAFETY_LOCK (as produced by an emergency interdiction). -/
def kLocked : Kernel :=
  { state := { ZenBKernel.getInitialState 0 with status := Status.SAFETY_LOCK }
    log := []
    logBuffer := [] }

/-- Kernel with a loaded pattern, still IDLE. -/
def kLoaded : Kernel :=
  { state := { ZenBKernel.getInitialState 0 with
      pattern := some patBox
      phase := BreathPhase.inhale
      phaseDuration := 4 }
    log := []
    logBuffer := [] }

/-- Running kernel in the high-entropy scenario of the spec: sessionDuration
11, prediction_error 0.97. -/
def kHighEntropy : Kernel :=
  { state := { ZenBKernel.getInitialState 0 with
      status := Status.RUNNING
      pattern := some patBox
      phase := BreathPhase.inhale
      phaseDuration := 4
      sessionDuration := 11
      belief := { arousal := 1/2, attention := 1/2, rhythm_alignment := 0,
                  prediction_error := 97/100 } }
    log := []
    logBuffer := [] }

/-- Running kernel at a phase boundary setup: phase holdOut (whose successor
inhale is the cycle boundary), phaseElapsed 0, phaseDuration 4, one completed
cycle. -/
def kAtBoundary : Kernel :=
  { state := { ZenBKernel.getInitialState 0 with
      status := Status.RUNNING
      pattern := some patBox
      phase := BreathPhase.holdOut
      phaseElapsed := 0
      phaseDuration := 4
      cycleCount := 1
      sessionDuration := 6 }
    log := []
    logBuffer := [] }

-- ===================================================================
-- HELPER LEMMAS
-- ===================================================================

/-- Guard totality helper: intercept yields nothing or a SAFETY_INTERDICTION. -/
theorem intercept_none_or_interdiction (now : ℚ) (state : RuntimeState)
    (intention : KernelEvent) :
    SafetyPlane.intercept now state intention = none
    ∨ ∃ r a t, SafetyPlane.intercept now state intention
        = some (KernelEvent.SAFETY_INTERDICTION r a t) := by
  unfold SafetyPlane.intercept
  split_ifs
  · exact Or.inr ⟨_, _, _, rfl⟩
  · exact Or.inr ⟨_, _, _, rfl⟩
  · exact Or.inr ⟨_, _, _, rfl⟩
  · exact Or.inl rfl

/-- The guard never fires on intentions that are not START_SESSION, TICK or
LOAD_PROTOCOL. -/
theorem intercept_none_of_type (now : ℚ) (state : RuntimeState)
    (intention : KernelEvent)
    (h1 : intention.type ≠ EventType.START_SESSION)
    (h2 : intention.type ≠ EventType.TICK)
    (h3 : intention.type ≠ EventType.LOAD_PROTOCOL) :
    SafetyPlane.intercept now state intention = none := by
  unfold SafetyPlane.intercept
  simp [h1, h2, h3]

/-- Faithfulness of the termination-driven split: on every non-TICK intention
the re-entrant dispatch used inside handleTick coincides with dispatch. -/
theorem dispatchInner_eq_dispatch (env : Env) (k : Kernel) (intention : KernelEvent)
    (h : intention.type ≠ EventType.TICK) :
    ZenBKernel.dispatchInner env k intention = ZenBKernel.dispatch env k intention := by
  unfold ZenBKernel.dispatchInner ZenBKernel.dispatch
  rcases intercept_none_or_interdiction env.now k.state intention with hi | ⟨r, a, t, hi⟩
  · rw [hi]
    simp only [Option.getD_none]
    cases intention with
    | TICK dt ts => exact absurd rfl h
    | BOOT ts => rfl
    | LOAD_PROTOCOL pid ts => rfl
    | START_SESSION ts => rfl
    | INTERRUPTION kind ts => rfl
    | RESUME ts => rfl
    | HALT reason ts => rfl
    | PHASE_TRANSITION f t2 ts => rfl
    | CYCLE_COMPLETE c ts => rfl
    | ADAPTATION p ts => rfl
    | SAFETY_INTERDICTION r2 a2 ts => rfl
  · rw [hi]
    rfl

/-- A tick on a kernel that is neither RUNNING nor PAUSED is a no-op. -/
theorem handleTick_inactive (env : Env) (k : Kernel) (dt : ℚ)
    (h1 : k.state.status ≠ Status.RUNNING) (h2 : k.state.status ≠ Status.PAUSED) :
    ZenBKernel.handleTick env k dt = k := by
  unfold ZenBKernel.handleTick
  rw [if_pos ⟨h1, h2⟩]

/-- Bounds package for the two clamped belief scalars. -/
def beliefClampBounds (b : BeliefState) : Prop :=
  0 ≤ b.attention ∧ b.attention ≤ 1 ∧ 0 ≤ b.rhythm_alignment ∧ b.rhythm_alignment ≤ 1

/-- One update step keeps attention and rhythm_alignment in the unit
interval, for any non-negative time step. -/
theorem update_clamp_step (b : BeliefState) (obs : Observation)
    (p : Option BreathPattern) (hb : beliefClampBounds b)
    (hdt : 0 ≤ obs.delta_time) :
    beliefClampBounds (FreeEnergyController.update b obs p) := by
  obtain ⟨ha0, ha1, hr0, hr1⟩ := hb
  unfold FreeEnergyController.update beliefClampBounds
  dsimp only
  split_ifs with hd
  · refine ⟨le_max_left 0 _, ?_, le_max_left 0 _, ?_⟩
    · exact max_le (by norm_num) (by linarith)
    · exact max_le (by norm_num) (by linarith)
  · refine ⟨?_, min_le_left 1 _, ?_, min_le_left 1 _⟩
    · exact le_min (by norm_num) (by linarith)
    · exact le_min (by norm_num) (by linarith)

-- ===================================================================
-- CLAIM THEOREMS
-- ===================================================================

/-- Claim C4: for every (state, intention) pair, SafetyPlane.intercept returns
either none or an event of variant SAFETY_INTERDICTION, never any other
variant; it is a pure function of its inputs (in this embedding it is a total
function receiving the state by value, so it cannot mutate it). -/
theorem c4_guard_totality (now : ℚ) (state : RuntimeState) (intention : KernelEvent) :
    SafetyPlane.intercept now state intention = none
    ∨ ∃ r a t, SafetyPlane.intercept now state intention
        = some (KernelEvent.SAFETY_INTERDICTION r a t) :=
  intercept_none_or_interdiction now state intention

/-- Claim C7: starting from attention and rhythm_alignment in the unit
interval, any finite sequence of FreeEnergyController.update calls whose
observations have delta_time in the interval from 0 to 0.1 keeps attention and
rhythm_alignment in the unit interval. -/
theorem c7_belief_bounded (b : BeliefState)
    (l : List (Observation × Option BreathPattern))
    (hb : beliefClampBounds b)
    (hl : ∀ x ∈ l, 0 ≤ x.1.delta_time ∧ x.1.delta_time ≤ 1/10) :
    beliefClampBounds
      (l.foldl (fun acc x => FreeEnergyController.update acc x.1 x.2) b) := by
  induction l generalizing b with
  | nil => exact hb
  | cons hd tl ih =>
      simp only [List.foldl_cons]
      apply ih
      · exact update_clamp_step b hd.1 hd.2 hb (hl hd (by simp)).1
      · intro x hx
        exact hl x (by simp [hx])

/-- Observation used in the C7 witness. -/
def obsW : Observation :=
  { timestamp := 0
    delta_time := 1/10
    visibilty_state := "visible"
    user_interaction := none
    heart_rate := none
    hr_confidence := none }

/-- Witness for C7 at a concrete belief and a one-element update sequence. -/
theorem c7_witness :
    beliefClampBounds
      ([((obsW, (none : Option BreathPattern)))].foldl
        (fun acc x => FreeEnergyController.update acc x.1 x.2)
        { arousal := 1/2, attention := 1/2, rhythm_alignment := 0,
          prediction_error := 0 }) := by
  apply c7_belief_bounded
  · refine ⟨by norm_num, by norm_num, by norm_num, by norm_num⟩
  · intro x hx
    rw [List.mem_singleton] at hx
    subst hx
    refine ⟨by norm_num [obsW], by norm_num [obsW]⟩

/-- Claim C2 (code bug witness): dispatch discards the result of
eventStore.append, so the reducer runs and the canonical state is mutated no
matter what the store reports; with every append failing, START_SESSION on a
loaded pattern still moves status from IDLE to RUNNING. -/
theorem c2_reducer_runs_despite_append_failure :
    (∀ store : KernelEvent → Except String Unit,
      (ZenBKernel.dispatch { env0 with store := store } kLoaded
        (KernelEvent.START_SESSION 0)).state.status = Status.RUNNING)
    ∧ kLoaded.state.status = Status.IDLE
    ∧ failStore (KernelEvent.START_SESSION 0) = Except.error "storage failure" :=
  ⟨fun _ => rfl, rfl, rfl⟩

/-- Counterexample to claim C1 as stated: from SAFETY_LOCK, dispatching HALT
moves status to IDLE, so status does not remain SAFETY_LOCK under every
dispatched event. -/
theorem c1_counterexample :
    kLocked.state.status = Status.SAFETY_LOCK
    ∧ (ZenBKernel.dispatch env0 kLocked (KernelEvent.HALT "reset" 0)).state.status
        = Status.IDLE := by
  exact ⟨rfl, rfl⟩

/-- Counterexample to claim C9 as stated: with no LOAD_PROTOCOL intervening,
dispatching an external CYCLE_COMPLETE carrying count 0 drops cycleCount from
1 to 0 — a decrease, and a reset to 0 by an event other than LOAD_PROTOCOL. -/
theorem c9_counterexample :
    kAtBoundary.state.cycleCount = 1
    ∧ (ZenBKernel.dispatch env0 kAtBoundary
        (KernelEvent.CYCLE_COMPLETE 0 0)).state.cycleCount = 0 := by
  exact ⟨rfl, rfl⟩

/-- Concrete kernel object for the C3 counterexample and witness. -/
def kObj0 : KernelObj :=
  { stateHeap := [initialCell]
    beliefHeap :=
      [{ arousal := 1/2, attention := 1/2, rhythm_alignment := 0,
         prediction_error := 0 }]
    kref := 0 }

/-- Counterexample to claim C3 as stated: getState returns the live state
reference (the source returns this.state without copying), so an external
caller mutating the received value changes the canonical RuntimeState. -/
theorem c3_counterexample :
    (cellRead kObj0.stateHeap kObj0.kref).status = Status.IDLE
    ∧ ZenBKernel.getStateRef kObj0 = kObj0.kref
    ∧ (cellRead
        (heapSetStatus kObj0.stateHeap (ZenBKernel.getStateRef kObj0) Status.HALTED)
        kObj0.kref).status = Status.HALTED := by
  exact ⟨rfl, rfl, rfl⟩

/-- Concrete belief for the C8 counterexample. -/
def bC8 : BeliefState :=
  { arousal := 1, attention := 1/2, rhythm_alignment := 0, prediction_error := 0 }

/-- Concrete observation for the C8 counterexample: heart_rate present but 0,
confidence 0.7. -/
def obsC8 : Observation :=
  { timestamp := 0
    delta_time := 0
    visibilty_state := "visible"
    user_interaction := none
    heart_rate := some 0
    hr_confidence := some (7/10) }

/-- Counterexample to claim C8 as stated: with heart_rate present but equal to
0 and hr_confidence 0.7, the source's truthiness test skips the blend (JS
treats 0 as falsy), so update returns prediction_error 0.58 while the claim's
formula yields 0.54. -/
theorem c8_counterexample :
    (FreeEnergyController.update bC8 obsC8 none).prediction_error = 58/100
    ∧ specPredictionError bC8 obsC8 = 54/100
    ∧ (FreeEnergyController.update bC8 obsC8 none).prediction_error
        ≠ specPredictionError bC8 obsC8 := by
  have hcode : (FreeEnergyController.update bC8 obsC8 none).prediction_error
      = 58/100 := by
    unfold FreeEnergyController.update
    norm_num [bC8, obsC8, jsTruthy, abs_of_nonneg]
    rw [if_neg (by simp)]
    norm_num
  have hspec : specPredictionError bC8 obsC8 = 54/100 := by
    unfold specPredictionError specObservedArousal specHRCond specDistracted
    norm_num [bC8, obsC8, abs_of_nonneg]
    rw [if_neg (by simp)]
    norm_num
  refine ⟨hcode, hspec, ?_⟩
  rw [hcode, hspec]
  norm_num

/-- Rule 1 fires: under SAFETY_LOCK a START_SESSION intention is replaced by a
REJECT_START interdiction. -/
theorem intercept_start_locked (now : ℚ) (s : RuntimeState) (ts : ℚ)
    (h : s.status = Status.SAFETY_LOCK) :
    SafetyPlane.intercept now s (KernelEvent.START_SESSION ts)
      = some (KernelEvent.SAFETY_INTERDICTION 1 SafetyAction.REJECT_START now) := by
  unfold SafetyPlane.intercept
  rw [if_pos ⟨h, rfl⟩]

/-- The guard lets a TICK through when the kernel is not RUNNING. -/
theorem intercept_tick_not_running (now : ℚ) (s : RuntimeState) (dt ts : ℚ)
    (h : s.status ≠ Status.RUNNING) :
    SafetyPlane.intercept now s (KernelEvent.TICK dt ts) = none := by
  unfold SafetyPlane.intercept
  split_ifs with h1 h2 h3
  · simp [KernelEvent.type] at h1
  · exact absurd h2.2.1 h
  · simp [KernelEvent.type] at h3
  · rfl

/-- The guard lets a TICK through when the rule 2 thresholds are not both
exceeded. -/
theorem intercept_tick_guard_pass (now : ℚ) (s : RuntimeState) (dt ts : ℚ)
    (hg : ¬(s.belief.prediction_error > 19/20 ∧ s.sessionDuration > 10)) :
    SafetyPlane.intercept now s (KernelEvent.TICK dt ts) = none := by
  unfold SafetyPlane.intercept
  split_ifs with h1 h2 h3
  · simp [KernelEvent.type] at h1
  · exact absurd ⟨h2.2.2.1, h2.2.2.2⟩ hg
  · simp [KernelEvent.type] at h3
  · rfl

/-- Rule 2 fires: a TICK while RUNNING with prediction_error above 0.95 and
sessionDuration above 10 is replaced by the EMERGENCY_DAMPENING interdiction. -/
theorem intercept_tick_emergency (now : ℚ) (s : RuntimeState) (dt ts : ℚ)
    (hst : s.status = Status.RUNNING)
    (hpe : s.belief.prediction_error > 19/20)
    (hsd : s.sessionDuration > 10) :
    SafetyPlane.intercept now s (KernelEvent.TICK dt ts)
      = some (KernelEvent.SAFETY_INTERDICTION (19/20)
          SafetyAction.EMERGENCY_DAMPENING now) := by
  unfold SafetyPlane.intercept
  rw [if_neg, if_pos ⟨rfl, hst, hpe, hsd⟩]
  rintro ⟨h1, -⟩
  rw [hst] at h1
  exact absurd h1 (by decide)

/-- Claim C5: in a RUNNING state with sessionDuration above 10 and
prediction_error above 0.95, dispatching a TICK persists and reduces the
EMERGENCY_DAMPENING interdiction (riskLevel 0.95) instead of the TICK, and the
resulting status is SAFETY_LOCK with no other state field touched. -/
theorem c5_emergency_dampening (env : Env) (k : Kernel) (dt ts : ℚ)
    (hst : k.state.status = Status.RUNNING)
    (hsd : k.state.sessionDuration > 10)
    (hpe : k.state.belief.prediction_error > 19/20) :
    (ZenBKernel.dispatch env k (KernelEvent.TICK dt ts)).state
      = { k.state with status := Status.SAFETY_LOCK }
    ∧ (ZenBKernel.dispatch env k (KernelEvent.TICK dt ts)).log
      = k.log ++ [KernelEvent.SAFETY_INTERDICTION (19/20)
          SafetyAction.EMERGENCY_DAMPENING env.now]
    ∧ (ZenBKernel.dispatch env k (KernelEvent.TICK dt ts)).state.status
      = Status.SAFETY_LOCK := by
  simp only [ZenBKernel.dispatch]
  rw [intercept_tick_emergency env.now k.state dt ts hst hpe hsd]
  exact ⟨rfl, rfl, rfl⟩

/-- Witness for C5 at the spec scenario: sessionDuration 11, prediction_error
0.97, RUNNING; the tick locks the kernel. -/
theorem c5_witness :
    kHighEntropy.state.status = Status.RUNNING
    ∧ kHighEntropy.state.sessionDuration > 10
    ∧ kHighEntropy.state.belief.prediction_error > 19/20
    ∧ (ZenBKernel.dispatch env0 kHighEntropy (KernelEvent.TICK (1/10) 0)).state.status
        = Status.SAFETY_LOCK :=
  ⟨rfl, by norm_num [kHighEntropy], by norm_num [kHighEntropy],
    (c5_emergency_dampening env0 kHighEntropy (1/10) 0 rfl
      (by norm_num [kHighEntropy]) (by norm_num [kHighEntropy])).2.2⟩

/-- Claim C10: a dispatched TICK in a state that is neither RUNNING nor PAUSED
leaves every field of the RuntimeState unchanged; the tick is still recorded
in the log buffer and the event log. -/
theorem c10_tick_noop (env : Env) (k : Kernel) (dt ts : ℚ)
    (h1 : k.state.status ≠ Status.RUNNING)
    (h2 : k.state.status ≠ Status.PAUSED) :
    (ZenBKernel.dispatch env k (KernelEvent.TICK dt ts)).state = k.state
    ∧ (ZenBKernel.dispatch env k (KernelEvent.TICK dt ts)).logBuffer
      = (KernelEvent.TICK dt ts :: k.logBuffer).take 50
    ∧ (ZenBKernel.dispatch env k (KernelEvent.TICK dt ts)).log
      = k.log ++ [KernelEvent.TICK dt ts] := by
  simp only [ZenBKernel.dispatch]
  rw [intercept_tick_not_running env.now k.state dt ts h1]
  simp only [Option.getD_none, ZenBKernel.reduce]
  rw [handleTick_inactive env
    { state := k.state, log := k.log ++ [KernelEvent.TICK dt ts],
      logBuffer := List.take 50 (KernelEvent.TICK dt ts :: k.logBuffer) }
    dt h1 h2]
  exact ⟨rfl, rfl, rfl⟩

/-- Witness for C10 with a SAFETY_LOCK kernel. -/
theorem c10_witness :
    (ZenBKernel.dispatch env0 kLocked (KernelEvent.TICK (1/10) 0)).state
      = kLocked.state
    ∧ (ZenBKernel.dispatch env0 kLocked (KernelEvent.TICK (1/10) 0)).logBuffer
      = (KernelEvent.TICK (1/10) 0 :: kLocked.logBuffer).take 50
    ∧ (ZenBKernel.dispatch env0 kLocked (KernelEvent.TICK (1/10) 0)).log
      = kLocked.log ++ [KernelEvent.TICK (1/10) 0] :=
  c10_tick_noop env0 kLocked (1/10) 0 (by simp [kLocked]) (by simp [kLocked])

/-- Claim C1 (amended): from SAFETY_LOCK, every dispatched event other than
HALT and BOOT leaves status equal to SAFETY_LOCK; HALT and BOOT are the two
reducer cases that reset status to IDLE unconditionally. -/
theorem c1_safety_lock_sticky_amended (env : Env) (k : Kernel) (e : KernelEvent)
    (hst : k.state.status = Status.SAFETY_LOCK)
    (hh : e.type ≠ EventType.HALT)
    (hb : e.type ≠ EventType.BOOT) :
    (ZenBKernel.dispatch env k e).state.status = Status.SAFETY_LOCK := by
  cases e with
  | BOOT ts => exact absurd rfl hb
  | HALT r ts => exact absurd rfl hh
  | START_SESSION ts =>
      simp only [ZenBKernel.dispatch]
      rw [intercept_start_locked env.now k.state ts hst]
      exact hst
  | TICK dt ts =>
      have h1 : k.state.status ≠ Status.RUNNING := by rw [hst]; decide
      have h2 : k.state.status ≠ Status.PAUSED := by rw [hst]; decide
      simp only [ZenBKernel.dispatch]
      rw [intercept_tick_not_running env.now k.state dt ts h1]
      simp only [Option.getD_none, ZenBKernel.reduce]
      rw [handleTick_inactive env
        { state := k.state, log := k.log ++ [KernelEvent.TICK dt ts],
          logBuffer := List.take 50 (KernelEvent.TICK dt ts :: k.logBuffer) }
        dt h1 h2]
      exact hst
  | LOAD_PROTOCOL pid ts =>
      simp only [ZenBKernel.dispatch]
      unfold SafetyPlane.intercept
      split_ifs with h1 h2 h3
      · simp [KernelEvent.type] at h1
      · simp [KernelEvent.type] at h2
      · exact hst
      · simp only [Option.getD_none, ZenBKernel.reduce, ZenBKernel.reduceNonTick]
        rw [if_pos hst]
        exact hst
  | INTERRUPTION kind ts =>
      simp only [ZenBKernel.dispatch]
      rw [intercept_none_of_type env.now k.state (KernelEvent.INTERRUPTION kind ts)
        (by simp [KernelEvent.type]) (by simp [KernelEvent.type])
        (by simp [KernelEvent.type])]
      simp only [Option.getD_none, ZenBKernel.reduce, ZenBKernel.reduceNonTick]
      rw [if_neg]
      · exact hst
      · rw [hst]; decide
  | RESUME ts =>
      simp only [ZenBKernel.dispatch]
      rw [intercept_none_of_type env.now k.state (KernelEvent.RESUME ts)
        (by simp [KernelEvent.type]) (by simp [KernelEvent.type])
        (by simp [KernelEvent.type])]
      simp only [Option.getD_none, ZenBKernel.reduce, ZenBKernel.reduceNonTick]
      rw [if_neg]
      · exact hst
      · rw [hst]; decide
  | PHASE_TRANSITION f t ts =>
      simp only [ZenBKernel.dispatch]
      rw [intercept_none_of_type env.now k.state (KernelEvent.PHASE_TRANSITION f t ts)
        (by simp [KernelEvent.type]) (by simp [KernelEvent.type])
        (by simp [KernelEvent.type])]
      simp only [Option.getD_none, ZenBKernel.reduce, ZenBKernel.reduceNonTick]
      cases hp : k.state.pattern with
      | none => simp [hp, hst]
      | some pattern => simp [hp, hst]
  | CYCLE_COMPLETE c ts =>
      simp only [ZenBKernel.dispatch]
      rw [intercept_none_of_type env.now k.state (KernelEvent.CYCLE_COMPLETE c ts)
        (by simp [KernelEvent.type]) (by simp [KernelEvent.type])
        (by simp [KernelEvent.type])]
      exact hst
  | ADAPTATION p ts =>
      simp only [ZenBKernel.dispatch]
      rw [intercept_none_of_type env.now k.state (KernelEvent.ADAPTATION p ts)
        (by simp [KernelEvent.type]) (by simp [KernelEvent.type])
        (by simp [KernelEvent.type])]
      exact hst
  | SAFETY_INTERDICTION r a ts =>
      simp only [ZenBKernel.dispatch]
      rw [intercept_none_of_type env.now k.state (KernelEvent.SAFETY_INTERDICTION r a ts)
        (by simp [KernelEvent.type]) (by simp [KernelEvent.type])
        (by simp [KernelEvent.type])]
      simp only [Option.getD_none, ZenBKernel.reduce, ZenBKernel.reduceNonTick]
      split_ifs with ha
      · rfl
      · exact hst

/-- Witness for the amended C1: under SAFETY_LOCK a dispatched START_SESSION
leaves the kernel locked. -/
theorem c1_witness :
    kLocked.state.status = Status.SAFETY_LOCK
    ∧ (ZenBKernel.dispatch env0 kLocked (KernelEvent.START_SESSION 0)).state.status
        = Status.SAFETY_LOCK :=
  ⟨rfl, c1_safety_lock_sticky_amended env0 kLocked (KernelEvent.START_SESSION 0)
    rfl (by decide) (by decide)⟩

/-- Characterization of the re-entrant dispatch of a PHASE_TRANSITION when a
pattern is loaded: the guard passes it through, it is appended to the log and
buffer, and the reducer updates phase, phaseElapsed and phaseDuration. -/
theorem dispatchInner_PT (env : Env) (k : Kernel) (f t : BreathPhase) (ts : ℚ)
    (p : BreathPattern) (hp : k.state.pattern = some p) :
    ZenBKernel.dispatchInner env k (KernelEvent.PHASE_TRANSITION f t ts)
      = { state :=
            { k.state with
                phase := t
                phaseElapsed := 0
                phaseDuration := p.timings t }
          log := k.log ++ [KernelEvent.PHASE_TRANSITION f t ts]
          logBuffer := (KernelEvent.PHASE_TRANSITION f t ts :: k.logBuffer).take 50 } := by
  simp only [ZenBKernel.dispatchInner]
  rw [intercept_none_of_type env.now k.state (KernelEvent.PHASE_TRANSITION f t ts)
    (by simp [KernelEvent.type]) (by simp [KernelEvent.type]) (by simp [KernelEvent.type])]
  simp only [Option.getD_none, ZenBKernel.reduceNonTick]
  simp [hp]

/-- The re-entrant dispatch of a PHASE_TRANSITION never changes cycleCount. -/
theorem dispatchInner_PT_cycleCount (env : Env) (k : Kernel) (f t : BreathPhase)
    (ts : ℚ) :
    (ZenBKernel.dispatchInner env k
      (KernelEvent.PHASE_TRANSITION f t ts)).state.cycleCount
      = k.state.cycleCount := by
  simp only [ZenBKernel.dispatchInner]
  rw [intercept_none_of_type env.now k.state (KernelEvent.PHASE_TRANSITION f t ts)
    (by simp [KernelEvent.type]) (by simp [KernelEvent.type]) (by simp [KernelEvent.type])]
  simp only [Option.getD_none, ZenBKernel.reduceNonTick]
  cases hp : k.state.pattern with
  | none => simp [hp]
  | some pattern => simp [hp]

/-- Characterization of the re-entrant dispatch of a CYCLE_COMPLETE: the guard
passes it through, it is appended, and the reducer stores its count. -/
theorem dispatchInner_CC (env : Env) (k : Kernel) (c : ℕ) (ts : ℚ) :
    ZenBKernel.dispatchInner env k (KernelEvent.CYCLE_COMPLETE c ts)
      = { state := { k.state with cycleCount := c },
          log := k.log ++ [KernelEvent.CYCLE_COMPLETE c ts],
          logBuffer := (KernelEvent.CYCLE_COMPLETE c ts :: k.logBuffer).take 50 } := by
  simp only [ZenBKernel.dispatchInner]
  rw [intercept_none_of_type env.now k.state (KernelEvent.CYCLE_COMPLETE c ts)
    (by simp [KernelEvent.type]) (by simp [KernelEvent.type]) (by simp [KernelEvent.type])]
  rfl

/-- The re-entrant dispatch of a CYCLE_COMPLETE stores exactly its count. -/
theorem dispatchInner_CC_cycleCount (env : Env) (k : Kernel) (c : ℕ) (ts : ℚ) :
    (ZenBKernel.dispatchInner env k
      (KernelEvent.CYCLE_COMPLETE c ts)).state.cycleCount = c := by
  rw [dispatchInner_CC]

/-- A tick never decreases cycleCount: the only cycle event it can emit
carries the current count plus one. -/
theorem handleTick_cycleCount_mono (env : Env) (k : Kernel) (dt : ℚ) :
    k.state.cycleCount ≤ (ZenBKernel.handleTick env k dt).state.cycleCount := by
  by_cases h0 : k.state.status ≠ Status.RUNNING ∧ k.state.status ≠ Status.PAUSED
  · rw [handleTick_inactive env k dt h0.1 h0.2]
  · cases hp : k.state.pattern with
    | none =>
        unfold ZenBKernel.handleTick
        rw [if_neg h0]
        simp [hp]
    | some p =>
        by_cases hrun : k.state.status = Status.RUNNING
        · by_cases hge : k.state.phaseDuration ≤ k.state.phaseElapsed + dt
          · by_cases hcb : isCycleBoundary (nextPhaseSkipZero k.state.phase p) = true
            · unfold ZenBKernel.handleTick
              rw [if_neg h0]
              simp [hp, hrun, hge, hcb, dispatchInner_CC_cycleCount,
                dispatchInner_PT_cycleCount]
            · unfold ZenBKernel.handleTick
              rw [if_neg h0]
              simp [hp, hrun, hge, hcb, dispatchInner_PT_cycleCount]
          · unfold ZenBKernel.handleTick
            rw [if_neg h0]
            simp [hp, hrun, hge]
        · unfold ZenBKernel.handleTick
          rw [if_neg h0]
          simp [hp, hrun]

/-- Claim C9 (amended): with no LOAD_PROTOCOL dispatched, cycleCount never
decreases across a dispatched event unless that event is an externally
injected CYCLE_COMPLETE carrying a count below the current cycleCount; the
kernel's own tick pipeline only emits CYCLE_COMPLETE with the current count
plus one, so it is covered. -/
theorem c9_cycle_monotone_amended (env : Env) (k : Kernel) (e : KernelEvent)
    (hload : e.type ≠ EventType.LOAD_PROTOCOL)
    (hcc : ∀ c t, e = KernelEvent.CYCLE_COMPLETE c t → k.state.cycleCount ≤ c) :
    k.state.cycleCount ≤ (ZenBKernel.dispatch env k e).state.cycleCount := by
  simp only [ZenBKernel.dispatch]
  rcases intercept_none_or_interdiction env.now k.state e with hi | ⟨r, a, t, hi⟩
  · rw [hi]
    simp only [Option.getD_none]
    cases e with
    | TICK dt ts =>
        simp only [ZenBKernel.reduce]
        exact handleTick_cycleCount_mono env
          { state := k.state, log := k.log ++ [KernelEvent.TICK dt ts],
            logBuffer := List.take 50 (KernelEvent.TICK dt ts :: k.logBuffer) } dt
    | CYCLE_COMPLETE c ts =>
        simp only [ZenBKernel.reduce, ZenBKernel.reduceNonTick]
        exact hcc c ts rfl
    | LOAD_PROTOCOL pid ts => exact absurd rfl hload
    | BOOT ts => simp [ZenBKernel.reduce, ZenBKernel.reduceNonTick]
    | START_SESSION ts =>
        simp only [ZenBKernel.reduce, ZenBKernel.reduceNonTick]
        split_ifs <;> simp
    | INTERRUPTION kind ts =>
        simp only [ZenBKernel.reduce, ZenBKernel.reduceNonTick]
        split_ifs <;> simp
    | RESUME ts =>
        simp only [ZenBKernel.reduce, ZenBKernel.reduceNonTick]
        split_ifs <;> simp
    | HALT r2 ts => simp [ZenBKernel.reduce, ZenBKernel.reduceNonTick]
    | PHASE_TRANSITION f t2 ts =>
        simp only [ZenBKernel.reduce, ZenBKernel.reduceNonTick]
        cases hp : k.state.pattern <;> simp [hp]
    | ADAPTATION p ts => simp [ZenBKernel.reduce, ZenBKernel.reduceNonTick]
    | SAFETY_INTERDICTION r2 a2 ts =>
        simp only [ZenBKernel.reduce, ZenBKernel.reduceNonTick]
        split_ifs <;> simp
  · rw [hi]
    simp only [Option.getD_some, ZenBKernel.reduce, ZenBKernel.reduceNonTick]
    split_ifs <;> simp

/-- Witness for the amended C9: a dispatched START_SESSION does not decrease
cycleCount. -/
theorem c9_witness :
    kAtBoundary.state.cycleCount
      ≤ (ZenBKernel.dispatch env0 kAtBoundary
          (KernelEvent.START_SESSION 0)).state.cycleCount :=
  c9_cycle_monotone_amended env0 kAtBoundary (KernelEvent.START_SESSION 0)
    (by decide) (by intro c t h; simp at h)

/-- Writing the status of one top-level cell does not affect reads of a
different cell. -/
theorem cellRead_set_ne (h : List RuntimeStateCell) (i j : ℕ) (v : Status)
    (hne : i ≠ j) :
    cellRead (heapSetStatus h i v) j = cellRead h j := by
  unfold cellRead heapSetStatus
  rw [List.getD_eq_getElem?_getD, List.getD_eq_getElem?_getD,
    List.getElem?_set_ne hne]

/-- Reading the freshly appended cell yields the appended value. -/
theorem cellRead_concat_self (h : List RuntimeStateCell) (c : RuntimeStateCell) :
    cellRead (h ++ [c]) h.length = c := by
  unfold cellRead
  rw [List.getD_eq_getElem?_getD, List.getElem?_concat_length]
  rfl

/-- Reading below the old length is unaffected by appending. -/
theorem cellRead_append_left (h t : List RuntimeStateCell) (j : ℕ)
    (hj : j < h.length) :
    cellRead (h ++ t) j = cellRead h j := by
  unfold cellRead
  rw [List.getD_eq_getElem?_getD, List.getD_eq_getElem?_getD,
    List.getElem?_append, if_pos hj]

/-- Writing prediction_error through a valid belief reference is visible when
reading back through the same reference. -/
theorem beliefRead_set_self (h : List BeliefState) (r : ℕ) (q : ℚ)
    (hr : r < h.length) :
    beliefRead (heapSetPredictionError h r q) r
      = { beliefRead h r with prediction_error := q } := by
  unfold beliefRead heapSetPredictionError
  rw [List.getD_eq_getElem?_getD, List.getElem?_set_eq_of_lt _ hr]
  rfl

/-- Claim C3 (amended): getState and the immediate callback invocation in
subscribe hand out the live state object, whose mutation changes the canonical
RuntimeState (counterexample above); the snapshot broadcast by notify is a
SHALLOW copy — mutating one of its top-level fields leaves the canonical state
untouched, but its nested belief object is the very object the live state
references, so mutating the belief through the snapshot rewrites the canonical
belief (and the other nested fields, pattern, lastObservation and
safetyRegistry, are aliased the same way). -/
theorem c3_snapshot_amended (k : KernelObj) (v : Status) (q : ℚ)
    (hk : k.kref < k.stateHeap.length)
    (hb : (cellRead k.stateHeap k.kref).beliefRef < k.beliefHeap.length) :
    ZenBKernel.getStateRef k = k.kref
    ∧ ZenBKernel.subscribeCallArg k = k.kref
    ∧ cellRead
        (heapSetStatus (ZenBKernel.notifyCallArg k).1.stateHeap
          (ZenBKernel.notifyCallArg k).2 v)
        (ZenBKernel.notifyCallArg k).1.kref
      = cellRead (ZenBKernel.notifyCallArg k).1.stateHeap
          (ZenBKernel.notifyCallArg k).1.kref
    ∧ (cellRead (ZenBKernel.notifyCallArg k).1.stateHeap
        (ZenBKernel.notifyCallArg k).2).beliefRef
      = (cellRead (ZenBKernel.notifyCallArg k).1.stateHeap
          (ZenBKernel.notifyCallArg k).1.kref).beliefRef
    ∧ (beliefRead
        (heapSetPredictionError (ZenBKernel.notifyCallArg k).1.beliefHeap
          (cellRead (ZenBKernel.notifyCallArg k).1.stateHeap
            (ZenBKernel.notifyCallArg k).2).beliefRef q)
        (cellRead (ZenBKernel.notifyCallArg k).1.stateHeap
          (ZenBKernel.notifyCallArg k).1.kref).beliefRef).prediction_error = q := by
  have hsnap : cellRead (ZenBKernel.notifyCallArg k).1.stateHeap
      (ZenBKernel.notifyCallArg k).2 = cellRead k.stateHeap k.kref := by
    simp only [ZenBKernel.notifyCallArg]
    exact cellRead_concat_self k.stateHeap (cellRead k.stateHeap k.kref)
  have hlive : cellRead (ZenBKernel.notifyCallArg k).1.stateHeap
      (ZenBKernel.notifyCallArg k).1.kref = cellRead k.stateHeap k.kref := by
    simp only [ZenBKernel.notifyCallArg]
    exact cellRead_append_left k.stateHeap _ k.kref hk
  refine ⟨rfl, rfl, ?_, ?_, ?_⟩
  · apply cellRead_set_ne
    simp only [ZenBKernel.notifyCallArg]
    exact Nat.ne_of_gt hk
  · rw [hsnap, hlive]
  · rw [hsnap, hlive]
    simp only [ZenBKernel.notifyCallArg]
    rw [beliefRead_set_self _ _ _ hb]

/-- Witness for the amended C3 at a concrete kernel object. -/
theorem c3_witness :
    ZenBKernel.getStateRef kObj0 = kObj0.kref
    ∧ ZenBKernel.subscribeCallArg kObj0 = kObj0.kref
    ∧ cellRead
        (heapSetStatus (ZenBKernel.notifyCallArg kObj0).1.stateHeap
          (ZenBKernel.notifyCallArg kObj0).2 Status.HALTED)
        (ZenBKernel.notifyCallArg kObj0).1.kref
      = cellRead (ZenBKernel.notifyCallArg kObj0).1.stateHeap
          (ZenBKernel.notifyCallArg kObj0).1.kref
    ∧ (cellRead (ZenBKernel.notifyCallArg kObj0).1.stateHeap
        (ZenBKernel.notifyCallArg kObj0).2).beliefRef
      = (cellRead (ZenBKernel.notifyCallArg kObj0).1.stateHeap
          (ZenBKernel.notifyCallArg kObj0).1.kref).beliefRef
    ∧ (beliefRead
        (heapSetPredictionError (ZenBKernel.notifyCallArg kObj0).1.beliefHeap
          (cellRead (ZenBKernel.notifyCallArg kObj0).1.stateHeap
            (ZenBKernel.notifyCallArg kObj0).2).beliefRef 1)
        (cellRead (ZenBKernel.notifyCallArg kObj0).1.stateHeap
          (ZenBKernel.notifyCallArg kObj0).1.kref).beliefRef).prediction_error = 1 :=
  c3_snapshot_amended kObj0 Status.HALTED 1 (by simp [kObj0])
    (by simp [kObj0, cellRead, initialCell])

/-- The source's truthiness-guarded blending condition coincides with the
amended spec condition (heart_rate present and nonzero, hr_confidence present
and above 0.6). -/
theorem hrCond_amended_eq (obs : Observation) :
    (jsTruthy obs.heart_rate && jsTruthy obs.hr_confidence
      && decide (obs.hr_confidence.getD 0 > 3/5)) = specHRCondAmended obs := by
  unfold jsTruthy specHRCondAmended
  rcases hhr : obs.heart_rate with _ | x
  · rcases hc : obs.hr_confidence with _ | y <;> simp [hhr, hc]
  · rcases hc : obs.hr_confidence with _ | y
    · simp [hhr, hc]
    · simp only [hhr, hc]
      by_cases hy : y > 3/5
      · have hyz : y ≠ 0 := ne_of_gt (lt_trans (by norm_num) hy)
        simp [hy, hyz]
      · simp [hy]

/-- Claim C8 (amended): for every belief, observation and pattern, update
computes observed_arousal by blending exactly when heart_rate is present and
nonzero and hr_confidence is above 0.6 (JS truthiness makes a zero heart rate
count as absent), and the returned prediction_error and arousal follow the
claimed formulas with that condition. -/
theorem c8_prediction_error_formula_amended (b : BeliefState) (obs : Observation)
    (p : Option BreathPattern) :
    (FreeEnergyController.update b obs p).prediction_error
      = specPredictionErrorAmended b obs
    ∧ (FreeEnergyController.update b obs p).arousal
      = b.arousal + (specObservedArousalAmended b obs - b.arousal) * obs.delta_time := by
  have hcond := hrCond_amended_eq obs
  refine ⟨?_, ?_⟩
  all_goals simp only [FreeEnergyController.update, hcond,
    specPredictionErrorAmended, specObservedArousalAmended, specDistracted]
  all_goals split_ifs <;> ring

/-- Claim C6 (amended): in a RUNNING state with an active pattern,
phaseElapsed 0 and phaseDuration 4, a dispatched TICK with dt 5 — provided the
Safety Guard does not intercept it (rule 2 thresholds not both exceeded) —
persists exactly one PHASE_TRANSITION, moves phase to the sequencer's next
phase, and emits exactly one CYCLE_COMPLETE carrying the previous cycleCount
plus one exactly when that next phase is the cycle boundary. -/
theorem c6_single_phase_transition_amended (env : Env) (k : Kernel) (ts : ℚ)
    (p : BreathPattern)
    (hst : k.state.status = Status.RUNNING)
    (hp : k.state.pattern = some p)
    (he : k.state.phaseElapsed = 0)
    (hd : k.state.phaseDuration = 4)
    (hg : ¬(k.state.belief.prediction_error > 19/20 ∧ k.state.sessionDuration > 10)) :
    ((ZenBKernel.dispatch env k (KernelEvent.TICK 5 ts)).log.drop k.log.length).countP
        (fun e => decide (e.type = EventType.PHASE_TRANSITION)) = 1
    ∧ (ZenBKernel.dispatch env k (KernelEvent.TICK 5 ts)).state.phase
        = nextPhaseSkipZero k.state.phase p
    ∧ (isCycleBoundary (nextPhaseSkipZero k.state.phase p) = true →
        ((ZenBKernel.dispatch env k (KernelEvent.TICK 5 ts)).log.drop
            k.log.length).countP
            (fun e => decide (e.type = EventType.CYCLE_COMPLETE)) = 1
        ∧ (ZenBKernel.dispatch env k (KernelEvent.TICK 5 ts)).state.cycleCount
            = k.state.cycleCount + 1)
    ∧ (isCycleBoundary (nextPhaseSkipZero k.state.phase p) = false →
        ((ZenBKernel.dispatch env k (KernelEvent.TICK 5 ts)).log.drop
            k.log.length).countP
            (fun e => decide (e.type = EventType.CYCLE_COMPLETE)) = 0) := by
  simp only [ZenBKernel.dispatch]
  rw [intercept_tick_guard_pass env.now k.state 5 ts hg]
  simp only [Option.getD_none, ZenBKernel.reduce]
  unfold ZenBKernel.handleTick
  rw [if_neg (fun hcon => hcon.1 hst)]
  by_cases hcb : isCycleBoundary (nextPhaseSkipZero k.state.phase p) = true
  · simp [hp, hst, he, hd, hcb, dispatchInner_PT, dispatchInner_CC,
      show ((4:ℚ) ≤ 5) by norm_num, List.append_assoc, List.drop_left,
      KernelEvent.type, List.countP_cons, List.countP_nil]
  · simp [hp, hst, he, hd, hcb, dispatchInner_PT,
      show ((4:ℚ) ≤ 5) by norm_num, List.append_assoc, List.drop_left,
      KernelEvent.type, List.countP_cons, List.countP_nil]

/-- Witness for the amended C6: a tick at the holdOut-to-inhale boundary emits
one PHASE_TRANSITION and one CYCLE_COMPLETE incrementing cycleCount. -/
theorem c6_witness :
    ((ZenBKernel.dispatch env0 kAtBoundary (KernelEvent.TICK 5 0)).log.drop
        kAtBoundary.log.length).countP
        (fun e => decide (e.type = EventType.PHASE_TRANSITION)) = 1
    ∧ (ZenBKernel.dispatch env0 kAtBoundary (KernelEvent.TICK 5 0)).state.phase
        = nextPhaseSkipZero kAtBoundary.state.phase patBox
    ∧ ((ZenBKernel.dispatch env0 kAtBoundary (KernelEvent.TICK 5 0)).log.drop
        kAtBoundary.log.length).countP
        (fun e => decide (e.type = EventType.CYCLE_COMPLETE)) = 1
    ∧ (ZenBKernel.dispatch env0 kAtBoundary (KernelEvent.TICK 5 0)).state.cycleCount
        = kAtBoundary.state.cycleCount + 1 := by
  have hb : isCycleBoundary (nextPhaseSkipZero kAtBoundary.state.phase patBox) = true := by
    norm_num [kAtBoundary, nextPhaseSkipZero, BreathPhase.nextInOrder, patBox,
      isCycleBoundary]
  have h := c6_single_phase_transition_amended env0 kAtBoundary 0 patBox rfl rfl rfl rfl
    (by norm_num [kAtBoundary, ZenBKernel.getInitialState])
  exact ⟨h.1, h.2.1, (h.2.2.1 hb).1, (h.2.2.1 hb).2⟩

/-- Counterexample to claim C6 as stated: a state meeting all of the claim's
conditions (RUNNING, active pattern, phaseElapsed 0, phaseDuration 4) but with
prediction_error 0.97 and sessionDuration 11 gets its TICK intercepted by the
guard, so no PHASE_TRANSITION at all is persisted by the dispatch. -/
theorem c6_counterexample :
    kHighEntropy.state.status = Status.RUNNING
    ∧ kHighEntropy.state.pattern.isSome = true
    ∧ kHighEntropy.state.phaseElapsed = 0
    ∧ kHighEntropy.state.phaseDuration = 4
    ∧ ¬(((ZenBKernel.dispatch env0 kHighEntropy (KernelEvent.TICK 5 0)).log.drop
          kHighEntropy.log.length).countP
          (fun e => decide (e.type = EventType.PHASE_TRANSITION)) = 1) := by
  refine ⟨rfl, rfl, rfl, rfl, ?_⟩
  have hint := intercept_tick_emergency env0.now kHighEntropy.state 5 0 rfl
    (by norm_num [kHighEntropy]) (by norm_num [kHighEntropy])
  simp only [ZenBKernel.dispatch]
  rw [hint]
  simp [ZenBKernel.reduce, ZenBKernel.reduceNonTick, KernelEvent.type,
    kHighEntropy, List.countP_cons, List.countP_nil]
